import Mathlib

/-!
Shallow embedding of the mercurius change-data-capture broker
(src/subscription.rs, src/collection_entry.rs, src/lib.rs) and proofs
about its dispatch, registry and broker logic.

Modelling conventions:
* BSON documents are association lists of field name to a small `Bson`
  value type; `docGet` is `Document::get` (first matching field).
* The `serde_json_matcher::ObjMatcher` library is external to the
  repository, so a compiled filter is modelled as an arbitrary boolean
  predicate on documents; `Subscription.matches` follows the source
  structure (absent selector always matches).
* A tokio unbounded channel is a `Channel`: a receiver-alive flag plus
  the queue of events delivered so far.  `Channel.send` appends when the
  receiver is alive and fails with `SendError` otherwise, exactly the
  semantics of `UnboundedSender::send`.
* Rust `usize` arithmetic is `Nat` with the explicit bound `USIZE_MAX`;
  `checked_add` returns `none` above the bound.
* A Rust statement that panics (`unwrap` / `expect` on `None`, or an
  explicit panicking macro) is modelled by the `StepOutcome.panicked`
  outcome carrying the message, distinct from `StepOutcome.fatal`, which
  models `handle_events` returning `Err` through the `?` operator.
-/

/-- A small BSON value universe: enough to distinguish the string `_id`
keys the code requires from every other BSON type (e.g. ObjectId). -/
inductive Bson where
  | str (s : String)
  | objectId (s : String)
  | int (n : Int)
  | boolean (b : Bool)
deriving DecidableEq

/-- `mongodb::bson::Document`, as an association list of fields. -/
abbrev Document := List (String × Bson)

/-- `Document::get`: the first field with the given name, if any. -/
def docGet (d : Document) (k : String) : Option Bson :=
  match d with
  | [] => none
  | (k1, v) :: rest => if k1 = k then some v else docGet rest k

/-- `Bson::as_str`: `some` exactly on the string variant. -/
def bsonAsStr : Bson → Option String
  | Bson.str s => some s
  | _ => none

/-- `mongodb::change_stream::event::UpdateDescription` (payload is opaque
to the dispatch logic; we keep its two main fields). -/
structure UpdateDescription where
  updatedFields : Document
  removedFields : List String
deriving DecidableEq

/-- The subscriber-facing `Event` enum of src/subscription.rs. -/
inductive Event where
  | Added (document : Document)
  | Removed (key : String)
  | Updated (key : String) (update : UpdateDescription)
  | Replaced (key : String) (document : Document)
  | Drop
deriving DecidableEq

/-- `tokio::sync::mpsc::error::SendError<Event>`: the rejected event. -/
structure SendError where
  event : Event
deriving DecidableEq

/-- One unbounded channel: whether the receiver is still alive, and the
queue of events sent so far (in order). -/
structure Channel where
  receiverAlive : Bool
  queue : List Event
deriving DecidableEq

/-- `UnboundedSender::send`: appends when the receiver is alive,
otherwise fails with `SendError` carrying the event back. -/
def Channel.send (c : Channel) (e : Event) : Except SendError Channel :=
  if c.receiverAlive then Except.ok { c with queue := c.queue ++ [e] }
  else Except.error { event := e }

/-- The `Subscription` struct: an optional compiled selector (the
external matcher library is modelled as a document predicate) plus the
sending end of the subscriber channel. -/
structure Subscription where
  selector : Option (Document → Bool)
  channel : Channel

/-- `Subscription::matches` (src/subscription.rs lines 111 to 120):
a present selector decides, an absent selector always matches. -/
def Subscription.matches (s : Subscription) (document : Document) : Bool :=
  match s.selector with
  | some matcher => if !matcher document then false else true
  | none => true

/-- Sending on the subscription channel, propagating the updated channel
state (the Rust code mutates `self.channel` through the sender). -/
def Subscription.sendEvent (s : Subscription) (e : Event) :
    Except SendError Subscription :=
  match s.channel.send e with
  | Except.ok c => Except.ok { s with channel := c }
  | Except.error err => Except.error err

/-- `Subscription::handle_insert` (lines 33 to 40). -/
def Subscription.handle_insert (s : Subscription) (document : Document) :
    Except SendError Subscription :=
  if !s.matches document then Except.ok s
  else s.sendEvent (Event.Added document)

/-- `Subscription::handle_delete` (lines 42 to 54). -/
def Subscription.handle_delete (s : Subscription) (key : String)
    (document : Document) : Except SendError Subscription :=
  if !s.matches document then Except.ok s
  else s.sendEvent (Event.Removed key)

/-- `Subscription::handle_update` (lines 56 to 80). -/
def Subscription.handle_update (s : Subscription) (key : String)
    (update : UpdateDescription) (old_doc : Document) (new_doc : Document) :
    Except SendError Subscription :=
  let old_doc_matches := s.matches old_doc
  let new_doc_matches := s.matches new_doc
  if old_doc_matches && new_doc_matches then
    s.sendEvent (Event.Updated key update)
  else if old_doc_matches then
    s.sendEvent (Event.Removed key)
  else if new_doc_matches then
    s.sendEvent (Event.Added new_doc)
  else
    Except.ok s

/-- `Subscription::handle_replace` (lines 82 to 105). -/
def Subscription.handle_replace (s : Subscription) (key : String)
    (old_doc : Document) (new_doc : Document) :
    Except SendError Subscription :=
  let old_doc_matches := s.matches old_doc
  let new_doc_matches := s.matches new_doc
  if old_doc_matches && new_doc_matches then
    s.sendEvent (Event.Replaced key new_doc)
  else if old_doc_matches then
    s.sendEvent (Event.Removed key)
  else if new_doc_matches then
    s.sendEvent (Event.Added new_doc)
  else
    Except.ok s

/-- `Subscription::handle_drop` (lines 107 to 109): always send. -/
def Subscription.handle_drop (s : Subscription) :
    Except SendError Subscription :=
  s.sendEvent Event.Drop

/-! ## SubscriptionsManager (src/collection_entry.rs, mod subscriptions_manager) -/

/-- `usize::MAX` on a 64-bit target. -/
def USIZE_MAX : Nat := 18446744073709551615

/-- `usize::checked_add` restricted to the modelled bound. -/
def checked_add (a b : Nat) : Option Nat :=
  if a + b > USIZE_MAX then none else some (a + b)

/-- `HashMap::insert` on an association list: replace the value of an
existing key, otherwise append the new binding. -/
def insertAssoc {κ α : Type} [DecidableEq κ] :
    List (κ × α) → κ → α → List (κ × α)
  | [], k, v => [(k, v)]
  | (k1, v1) :: rest, k, v =>
    if k1 = k then (k, v) :: rest else (k1, v1) :: insertAssoc rest k v

/-- `HashMap::remove` on an association list. -/
def removeAssoc {κ α : Type} [DecidableEq κ] (l : List (κ × α)) (k : κ) :
    List (κ × α) :=
  l.filter (fun p => p.1 != k)

/-- `HashMap::get` on an association list. -/
def lookupAssoc {κ α : Type} [DecidableEq κ] :
    List (κ × α) → κ → Option α
  | [], _ => none
  | (k1, v) :: rest, k => if k1 = k then some v else lookupAssoc rest k

/-- Insertion of one key into a sorted list of keys. -/
def insertSorted (x : Nat) : List Nat → List Nat
  | [] => [x]
  | y :: ys => if x ≤ y then x :: y :: ys else y :: insertSorted x ys

/-- `keys.sort()` over the registry keys. -/
def sortKeys (l : List Nat) : List Nat :=
  l.foldr insertSorted []

/-- `SubscriptionsManagerError`. -/
inductive SubscriptionsManagerError where
  | NoFreeSlot
deriving DecidableEq

/-- The `SubscriptionsManager` struct.  `SubscriptionHandle` is a
newtype over `usize`; handles are modelled as the underlying `Nat`. -/
structure SubscriptionsManager where
  subscriptions : List (Nat × Subscription)
  has_been_filled : Bool
  next_index : Nat

/-- `SubscriptionsManager::new`. -/
def SubscriptionsManager.new : SubscriptionsManager :=
  { subscriptions := [], has_been_filled := false, next_index := 0 }

/-- `SubscriptionsManager::len`. -/
def SubscriptionsManager.len (m : SubscriptionsManager) : Nat :=
  m.subscriptions.length

/-- `SubscriptionsManager::get_all` (the iteration order of the hash map
is modelled as insertion order of the association list). -/
def SubscriptionsManager.get_all (m : SubscriptionsManager) :
    List Subscription :=
  m.subscriptions.map Prod.snd

/-- The scan loop of `find_free_index`:
`for i in 0..bound { if keys[i] != i { return Ok(i) } }` followed by
`Err(NoFreeSlot)`.  `keys` is the sorted key list and the third
argument is the remaining loop bound. -/
def scanForGap : List Nat → Nat → Nat → Except SubscriptionsManagerError Nat
  | _, _, 0 => Except.error SubscriptionsManagerError.NoFreeSlot
  | [], _, _ + 1 => Except.error SubscriptionsManagerError.NoFreeSlot
  | k :: rest, i, bound + 1 =>
    if k ≠ i then Except.ok i else scanForGap rest (i + 1) bound

/-- `SubscriptionsManager::find_free_index` (lines 86 to 98): sort the
current keys and scan `0..min(keys.len(), usize::MAX)` for the first
position whose key differs from its index. -/
def SubscriptionsManager.find_free_index (m : SubscriptionsManager) :
    Except SubscriptionsManagerError Nat :=
  let keys := sortKeys (m.subscriptions.map Prod.fst)
  scanForGap keys 0 (min keys.length USIZE_MAX)

/-- `SubscriptionsManager::add` (lines 60 to 80).  The Rust method
mutates `self` and returns `Result<SubscriptionHandle, _>`; the model
returns the updated manager alongside the result (note that the
`has_been_filled` flag is set even when `find_free_index` then fails,
exactly as in the source). -/
def SubscriptionsManager.add (m : SubscriptionsManager)
    (subscription : Subscription) :
    SubscriptionsManager × Except SubscriptionsManagerError Nat :=
  let handle := m.next_index
  if m.has_been_filled then
    match m.find_free_index with
    | Except.error e => (m, Except.error e)
    | Except.ok new_index =>
      ({ m with
          subscriptions := insertAssoc m.subscriptions handle subscription,
          next_index := new_index },
        Except.ok handle)
  else
    match checked_add m.next_index 1 with
    | some v =>
      ({ m with
          subscriptions := insertAssoc m.subscriptions handle subscription,
          next_index := v },
        Except.ok handle)
    | none =>
      let m1 := { m with has_been_filled := true }
      match m1.find_free_index with
      | Except.error e => (m1, Except.error e)
      | Except.ok new_index =>
        ({ m1 with
            subscriptions := insertAssoc m1.subscriptions handle subscription,
            next_index := new_index },
          Except.ok handle)

/-- `SubscriptionsManager::remove` (lines 82 to 84). -/
def SubscriptionsManager.remove (m : SubscriptionsManager) (handle : Nat) :
    SubscriptionsManager :=
  { m with subscriptions := removeAssoc m.subscriptions handle }

/-! ## The watcher loop (CollectionEntry::handle_events) -/

/-- `mongodb::change_stream::event::OperationType`.  The Rust enum is
non-exhaustive; `Unknown` stands for any variant beyond the listed
ones, which the source handles with a catch-all panicking arm. -/
inductive OperationType where
  | Insert
  | Delete
  | Update
  | Replace
  | DropDatabase
  | Drop
  | Rename
  | Invalidate
  | Other (s : String)
  | Unknown (s : String)
deriving DecidableEq

/-- The fields of `ChangeStreamEvent<Document>` the loop reads. -/
structure ChangeStreamEvent where
  operation_type : OperationType
  document_key : Option Document
  full_document : Option Document
  full_document_before_change : Option Document
  update_description : Option UpdateDescription

/-- The message of `Option::unwrap` on `None`. -/
def unwrapNoneMsg : String := "called Option unwrap on a None value"

/-- `get_key` (src/collection_entry.rs lines 187 to 196):
`document_key.unwrap().get("_id").unwrap().as_str().unwrap()`.
`none` models the panic of any of the three unwraps. -/
def get_key (document_key : Option Document) : Option String :=
  match document_key with
  | none => none
  | some d =>
    match docGet d "_id" with
    | none => none
    | some b =>
      match bsonAsStr b with
      | none => none
      | some s => some s

/-- One `for subscription in subscriptions.get_all() { handler(...)? }`
pass: on the first send failure the `?` operator aborts the loop, so
the failing subscription and every later one are returned unchanged.
Returns the subscription states after the pass and the error, if any. -/
def dispatchLoop (handler : Subscription → Except SendError Subscription) :
    List Subscription → List Subscription × Option SendError
  | [] => ([], none)
  | s :: rest =>
    match handler s with
    | Except.error e => (s :: rest, some e)
    | Except.ok s2 =>
      match dispatchLoop handler rest with
      | (rest2, r) => (s2 :: rest2, r)

/-- Outcome of one iteration of the `handle_events` loop body. -/
inductive StepOutcome where
  | next (subs : List Subscription)
  | fatal (e : SendError)
  | panicked (msg : String)

/-- The body of the `while change_stream.is_alive()` loop of
`CollectionEntry::handle_events` (lines 202 to 291) for one change
event, faithful to the order of the panicking extractions and the
abort-on-first-send-error dispatch loops. -/
def handleOneEvent (subs : List Subscription) (event : ChangeStreamEvent) :
    StepOutcome :=
  match event.operation_type with
  | OperationType.Insert =>
    match event.full_document with
    | none => StepOutcome.panicked "the inserted document should be available"
    | some doc =>
      match dispatchLoop (fun s => s.handle_insert doc) subs with
      | (subs2, none) => StepOutcome.next subs2
      | (_, some e) => StepOutcome.fatal e
  | OperationType.Delete =>
    match get_key event.document_key with
    | none => StepOutcome.panicked unwrapNoneMsg
    | some key =>
      match event.full_document_before_change with
      | none => StepOutcome.panicked "the deleted document should be available"
      | some doc =>
        match dispatchLoop (fun s => s.handle_delete key doc) subs with
        | (subs2, none) => StepOutcome.next subs2
        | (_, some e) => StepOutcome.fatal e
  | OperationType.Update =>
    match get_key event.document_key with
    | none => StepOutcome.panicked unwrapNoneMsg
    | some key =>
      match event.update_description with
      | none => StepOutcome.panicked "the updated values should be available"
      | some update =>
        match event.full_document with
        | none =>
          StepOutcome.panicked
            "the new document should be available for this update"
        | some new_doc =>
          match event.full_document_before_change with
          | none =>
            StepOutcome.panicked
              "the old document should be available for this update"
          | some old_doc =>
            match dispatchLoop
                (fun s => s.handle_update key update old_doc new_doc) subs with
            | (subs2, none) => StepOutcome.next subs2
            | (_, some e) => StepOutcome.fatal e
  | OperationType.Replace =>
    match get_key event.document_key with
    | none => StepOutcome.panicked unwrapNoneMsg
    | some key =>
      match event.full_document with
      | none =>
        StepOutcome.panicked
          "the new document should be available for this replacement"
      | some new_doc =>
        match event.full_document_before_change with
        | none =>
          StepOutcome.panicked
            "the old document should be available for this replacement"
        | some old_doc =>
          match dispatchLoop
              (fun s => s.handle_replace key old_doc new_doc) subs with
          | (subs2, none) => StepOutcome.next subs2
          | (_, some e) => StepOutcome.fatal e
  | OperationType.DropDatabase =>
    match dispatchLoop Subscription.handle_drop subs with
    | (subs2, none) => StepOutcome.next subs2
    | (_, some e) => StepOutcome.fatal e
  | OperationType.Drop =>
    match dispatchLoop Subscription.handle_drop subs with
    | (subs2, none) => StepOutcome.next subs2
    | (_, some e) => StepOutcome.fatal e
  | OperationType.Rename =>
    match dispatchLoop Subscription.handle_drop subs with
    | (subs2, none) => StepOutcome.next subs2
    | (_, some e) => StepOutcome.fatal e
  | OperationType.Invalidate =>
    match dispatchLoop Subscription.handle_drop subs with
    | (subs2, none) => StepOutcome.next subs2
    | (_, some e) => StepOutcome.fatal e
  | OperationType.Other s =>
    StepOutcome.panicked
      ("Received a change event that we do not know how to handle: " ++ s)
  | OperationType.Unknown s =>
    StepOutcome.panicked ("Operation type not implemented: " ++ s)

/-- How a full run of `CollectionEntry::handle_events` ends.  The
function never returns `Ok`: exhausting the stream yields
`Err("change stream ended")`. -/
inductive LoopResult where
  | fatalSend (e : SendError)
  | fatalStreamEnded
  | panicked (msg : String)

/-- `CollectionEntry::handle_events` over a finite list of feed events:
fold `handleOneEvent` until a terminating outcome; an exhausted stream
is the fatal error the source constructs at the end of the loop. -/
def handle_events (subs : List Subscription) :
    List ChangeStreamEvent → LoopResult
  | [] => LoopResult.fatalStreamEnded
  | e :: rest =>
    match handleOneEvent subs e with
    | StepOutcome.next subs2 => handle_events subs2 rest
    | StepOutcome.fatal err => LoopResult.fatalSend err
    | StepOutcome.panicked m => LoopResult.panicked m

/-! ## CollectionEntry and the Mercurius broker (src/lib.rs) -/

/-- The `CollectionEntry` struct.  Opening the change stream and
spawning the watcher task are external effects; each successful
`CollectionEntry::new` is modelled as creating a fresh watcher identity
(`watcherId`), so distinct ids witness distinct change-feed sessions. -/
structure CollectionEntry where
  watcherId : Nat
  subscriptions : SubscriptionsManager

/-- `CollectionEntry::new` (src/collection_entry.rs lines 131 to 160)
on the success path: a fresh change stream and task, and an empty
subscriptions manager. -/
def CollectionEntry.new (watcherId : Nat) : CollectionEntry :=
  { watcherId := watcherId, subscriptions := SubscriptionsManager.new }

/-- `CollectionEntry::add_subscription` (lines 162 to 173): build the
`Subscription` from the filter and channel and register it. -/
def CollectionEntry.add_subscription (e : CollectionEntry)
    (filter : Option (Document → Bool)) (channel : Channel) :
    CollectionEntry × Except SubscriptionsManagerError Nat :=
  let (mgr, r) :=
    e.subscriptions.add { selector := filter, channel := channel }
  ({ e with subscriptions := mgr }, r)

/-- `CollectionEntry::remove_subscription` (lines 175 to 177). -/
def CollectionEntry.remove_subscription (e : CollectionEntry)
    (handle : Nat) : CollectionEntry :=
  { e with subscriptions := e.subscriptions.remove handle }

/-- `CollectionEntry::subscription_count` (lines 179 to 181). -/
def CollectionEntry.subscription_count (e : CollectionEntry) : Nat :=
  e.subscriptions.len

/-- The caller-visible `Handle` of src/lib.rs. -/
structure Handle where
  collection_name : String
  subscription_handle : Nat

/-- The `Mercurius` broker state: the collection-name map, plus a
counter of watcher creations standing for the join set of spawned
watcher tasks (the database handle is an external collaborator). -/
structure Mercurius where
  collections : List (String × CollectionEntry)
  nextWatcherId : Nat

/-- `Mercurius::new`. -/
def Mercurius.new : Mercurius :=
  { collections := [], nextWatcherId := 0 }

/-- A freshly created `mpsc::unbounded_channel` sender. -/
def freshChannel : Channel :=
  { receiverAlive := true, queue := [] }

/-- `Mercurius::add` (src/lib.rs lines 40 to 74) on the success path of
the external calls (`collMod` command and stream opening).  Faithful to
the source: a `CollectionEntry` is created unconditionally (spawning a
new watcher), a fresh channel is made, the subscription is registered
on the new entry, and only then is the entry inserted into the map,
replacing any entry already present under that name. -/
def Mercurius.add (m : Mercurius) (name : String)
    (filter : Option (Document → Bool)) :
    Except SubscriptionsManagerError (Mercurius × Handle) :=
  let entry := CollectionEntry.new m.nextWatcherId
  let m1 := { m with nextWatcherId := m.nextWatcherId + 1 }
  match entry.add_subscription filter freshChannel with
  | (_, Except.error e) => Except.error e
  | (entry2, Except.ok handle) =>
    Except.ok
      ({ m1 with collections := insertAssoc m1.collections name entry2 },
        { collection_name := name, subscription_handle := handle })

/-- `Mercurius::remove` (src/lib.rs lines 76 to 91): no-op when the
collection is unknown, otherwise remove the subscription and drop the
entry if its registry became empty. -/
def Mercurius.remove (m : Mercurius) (handle : Handle) : Mercurius :=
  match lookupAssoc m.collections handle.collection_name with
  | none => m
  | some entry =>
    let entry2 := entry.remove_subscription handle.subscription_handle
    if entry2.subscription_count = 0 then
      { m with
          collections := removeAssoc m.collections handle.collection_name }
    else
      { m with
          collections :=
            insertAssoc m.collections handle.collection_name entry2 }

/-! ## Concrete fixtures shared by the examples and witnesses -/

/-- An always-open channel with nothing delivered yet. -/
def chOpen : Channel := { receiverAlive := true, queue := [] }

/-- A channel whose receiver has been dropped. -/
def chClosed : Channel := { receiverAlive := false, queue := [] }

/-- A subscription with no filter and a live receiver. -/
def subOpen : Subscription := { selector := none, channel := chOpen }

/-- A subscription with no filter whose receiver is gone. -/
def subClosed : Subscription := { selector := none, channel := chClosed }

/-- The filter of the spec scenarios: documents whose `status` field is
the string `active`. -/
def statusActiveFilter : Document → Bool :=
  fun d => decide (docGet d "status" = some (Bson.str "active"))

/-- A subscription with the `status = active` filter, live receiver. -/
def subActive : Subscription :=
  { selector := some statusActiveFilter, channel := chOpen }

/-- A matching sample document. -/
def docActive : Document :=
  [("_id", Bson.str "k1"), ("status", Bson.str "active")]

/-- A non-matching sample document. -/
def docInactive : Document :=
  [("_id", Bson.str "k1"), ("status", Bson.str "inactive")]

/-- A sample update description. -/
def updSample : UpdateDescription :=
  { updatedFields := [("status", Bson.str "inactive")], removedFields := [] }

/-- Written from the spec's words (the table of section 4.3): the event
list delivered for an update or replace, as a function of the two match
bits only — pass-through on (true, true), `Removed` on (true, false),
`Added` on (false, true), nothing on (false, false).  Used to state the
refinement claim about `handle_update` and `handle_replace`. -/
def specUpdateReplaceOutcome (old_doc_matches new_doc_matches : Bool)
    (passEvent : Event) (key : String) (new_doc : Document) : List Event :=
  if old_doc_matches && new_doc_matches then [passEvent]
  else if old_doc_matches then [Event.Removed key]
  else if new_doc_matches then [Event.Added new_doc]
  else []

/-- The registry contents after registering the same subscription under
handles `0, 1, ..., n - 1`. -/
def assocRange (n : Nat) (s : Subscription) : List (Nat × Subscription) :=
  (List.range n).map (fun i => (i, s))

/-- `n` sequential `SubscriptionsManager::add` calls starting from a
fresh registry, collecting each call's result. -/
def addN (s : Subscription) :
    Nat → SubscriptionsManager × List (Except SubscriptionsManagerError Nat)
  | 0 => (SubscriptionsManager.new, [])
  | n + 1 =>
    let p := addN s n
    let q := p.1.add s
    (q.1, p.2 ++ [q.2])

/-- A subscription with the `status = active` filter whose receiver has
been dropped. -/
def subActiveClosed : Subscription :=
  { selector := some statusActiveFilter, channel := chClosed }

/-- Two sequential `Mercurius::add` calls for the same collection name,
returning the resulting broker state. -/
def twoAddsSameCollection : Except SubscriptionsManagerError Mercurius :=
  match Mercurius.new.add "users" none with
  | Except.error e => Except.error e
  | Except.ok (m1, _) =>
    match m1.add "users" none with
    | Except.error e => Except.error e
    | Except.ok (m2, _) => Except.ok m2

/-! ## Claim theorems -/

/-- C5: an `Insert(D)` change event is delivered to a subscription as
`Added(D)` if and only if the filter matches `D`; when the filter does
not match, nothing is delivered; a subscription with an absent filter
matches every document and so receives `Added` for every insert. -/
theorem C5_insert_added_iff_matches (s : Subscription) (d : Document)
    (h : s.channel.receiverAlive = true) :
    s.handle_insert d =
      Except.ok { s with channel :=
        { s.channel with queue :=
            s.channel.queue ++
              (if s.matches d then [Event.Added d] else []) } }
    ∧ (s.selector = none → s.matches d = true) := by
  constructor
  · cases hm : s.matches d with
    | false => simp [Subscription.handle_insert, hm]
    | true =>
      simp [Subscription.handle_insert, hm, Subscription.sendEvent,
        Channel.send, h]
  · intro hn
    simp [Subscription.matches, hn]

/-- Witness for C5 at the unfiltered live subscription and a concrete
document. -/
theorem C5_witness :
    subOpen.channel.receiverAlive = true ∧
      (Subscription.handle_insert subOpen docActive =
        Except.ok { subOpen with channel :=
          { subOpen.channel with queue :=
              subOpen.channel.queue ++
                (if subOpen.matches docActive then [Event.Added docActive]
                  else []) } }
        ∧ (subOpen.selector = none → subOpen.matches docActive = true)) :=
  ⟨rfl, C5_insert_added_iff_matches subOpen docActive rfl⟩

/-- C1: for update and replace events the delivered event is exactly
one of four outcomes, a function of the pair of match bits on the old
and new documents only: pass-through `Updated`/`Replaced` when both
match, `Removed(key)` when only the old matches, `Added(new)` when only
the new matches, and nothing when neither matches. -/
theorem C1_update_replace_outcome (s : Subscription) (key : String)
    (update : UpdateDescription) (old_doc new_doc : Document)
    (h : s.channel.receiverAlive = true) :
    s.handle_update key update old_doc new_doc =
      Except.ok { s with channel :=
        { s.channel with queue :=
            s.channel.queue ++
              (specUpdateReplaceOutcome (s.matches old_doc)
                (s.matches new_doc) (Event.Updated key update) key
                new_doc) } }
    ∧ s.handle_replace key old_doc new_doc =
      Except.ok { s with channel :=
        { s.channel with queue :=
            s.channel.queue ++
              (specUpdateReplaceOutcome (s.matches old_doc)
                (s.matches new_doc) (Event.Replaced key new_doc) key
                new_doc) } } := by
  obtain ⟨sel, alive, q⟩ := s
  simp only [Channel.receiverAlive] at h
  subst h
  cases hO : Subscription.matches ⟨sel, true, q⟩ old_doc <;>
    cases hN : Subscription.matches ⟨sel, true, q⟩ new_doc <;>
      simp [Subscription.handle_update, Subscription.handle_replace,
        Subscription.sendEvent, Channel.send, specUpdateReplaceOutcome,
        hO, hN]

/-- Witness for C1 at the `status = active` subscription with an update
that leaves its view (old matches, new does not). -/
theorem C1_witness :
    subActive.channel.receiverAlive = true ∧
      (Subscription.handle_update subActive "k1" updSample docActive
          docInactive =
        Except.ok { subActive with channel :=
          { subActive.channel with queue :=
              subActive.channel.queue ++
                (specUpdateReplaceOutcome (subActive.matches docActive)
                  (subActive.matches docInactive)
                  (Event.Updated "k1" updSample) "k1" docInactive) } }
      ∧ Subscription.handle_replace subActive "k1" docActive docInactive =
        Except.ok { subActive with channel :=
          { subActive.channel with queue :=
              subActive.channel.queue ++
                (specUpdateReplaceOutcome (subActive.matches docActive)
                  (subActive.matches docInactive)
                  (Event.Replaced "k1" docInactive) "k1" docInactive) } }) :=
  ⟨rfl,
    C1_update_replace_outcome subActive "k1" updSample docActive docInactive
      rfl⟩

/-- C10: when the filter does not match the relevant documents, the
handlers return the success outcome without touching the channel, even
if the receiver is already gone; a closed channel surfaces as an error
only when an event would actually be delivered. -/
theorem C10_suppressed_ignores_channel (s : Subscription) (key : String)
    (update : UpdateDescription) (d old_doc new_doc d2 : Document)
    (hd : s.matches d = false) (ho : s.matches old_doc = false)
    (hn : s.matches new_doc = false) :
    s.handle_insert d = Except.ok s
    ∧ s.handle_delete key d = Except.ok s
    ∧ s.handle_update key update old_doc new_doc = Except.ok s
    ∧ s.handle_replace key old_doc new_doc = Except.ok s
    ∧ (s.channel.receiverAlive = false → s.matches d2 = true →
        s.handle_insert d2 = Except.error { event := Event.Added d2 }) := by
  refine ⟨?_, ?_, ?_, ?_, ?_⟩
  · simp [Subscription.handle_insert, hd]
  · simp [Subscription.handle_delete, hd]
  · simp [Subscription.handle_update, ho, hn]
  · simp [Subscription.handle_replace, ho, hn]
  · intro hc hm
    simp [Subscription.handle_insert, hm, Subscription.sendEvent,
      Channel.send, hc]

/-- Witness for C10 at a closed-receiver subscription whose filter
rejects the sample document but accepts another. -/
theorem C10_witness :
    subActiveClosed.matches docInactive = false ∧
      subActiveClosed.matches docActive = true ∧
      subActiveClosed.channel.receiverAlive = false ∧
      (Subscription.handle_insert subActiveClosed docInactive =
          Except.ok subActiveClosed
        ∧ Subscription.handle_delete subActiveClosed "k1" docInactive =
          Except.ok subActiveClosed
        ∧ Subscription.handle_update subActiveClosed "k1" updSample
            docInactive docInactive = Except.ok subActiveClosed
        ∧ Subscription.handle_replace subActiveClosed "k1" docInactive
            docInactive = Except.ok subActiveClosed
        ∧ (subActiveClosed.channel.receiverAlive = false →
            subActiveClosed.matches docActive = true →
            Subscription.handle_insert subActiveClosed docActive =
              Except.error { event := Event.Added docActive })) :=
  ⟨by decide, by decide, rfl,
    C10_suppressed_ignores_channel subActiveClosed "k1" updSample
      docInactive docInactive docInactive docActive (by decide) (by decide)
      (by decide)⟩

/-- Dispatching a drop-class event over a batch whose receivers are all
alive appends `Event.Drop` to every subscription queue, with no error. -/
theorem dispatchLoop_drop_all_alive (subs : List Subscription)
    (h : ∀ s ∈ subs, s.channel.receiverAlive = true) :
    dispatchLoop Subscription.handle_drop subs =
      (subs.map (fun s =>
          { s with channel :=
              { s.channel with queue := s.channel.queue ++ [Event.Drop] } }),
        none) := by
  induction subs with
  | nil => rfl
  | cons s rest ih =>
    have hs : s.channel.receiverAlive = true := h s (by simp)
    have hrest : ∀ t ∈ rest, t.channel.receiverAlive = true :=
      fun t ht => h t (by simp [ht])
    simp [dispatchLoop, Subscription.handle_drop, Subscription.sendEvent,
      Channel.send, hs, ih hrest]

/-- C7: every drop-class change event (`Drop`, `DropDatabase`, `Rename`,
`Invalidate`) delivers the `Drop` event to every current subscription
unconditionally — the subscriptions of the batch are arbitrary, so no
filter is consulted. -/
theorem C7_drop_class_unconditional (subs : List Subscription)
    (dk fd fdb : Option Document) (ud : Option UpdateDescription)
    (h : ∀ s ∈ subs, s.channel.receiverAlive = true) :
    let delivered := subs.map (fun s =>
      { s with channel :=
          { s.channel with queue := s.channel.queue ++ [Event.Drop] } })
    handleOneEvent subs
        { operation_type := OperationType.Drop, document_key := dk,
          full_document := fd, full_document_before_change := fdb,
          update_description := ud } = StepOutcome.next delivered
    ∧ handleOneEvent subs
        { operation_type := OperationType.DropDatabase, document_key := dk,
          full_document := fd, full_document_before_change := fdb,
          update_description := ud } = StepOutcome.next delivered
    ∧ handleOneEvent subs
        { operation_type := OperationType.Rename, document_key := dk,
          full_document := fd, full_document_before_change := fdb,
          update_description := ud } = StepOutcome.next delivered
    ∧ handleOneEvent subs
        { operation_type := OperationType.Invalidate, document_key := dk,
          full_document := fd, full_document_before_change := fdb,
          update_description := ud } = StepOutcome.next delivered := by
  refine ⟨?_, ?_, ?_, ?_⟩ <;>
    simp [handleOneEvent, dispatchLoop_drop_all_alive subs h]

/-- Witness for C7 at a batch of one filtered and one unfiltered live
subscription. -/
theorem C7_witness :
    (∀ s ∈ [subActive, subOpen], s.channel.receiverAlive = true) ∧
      (let delivered := [subActive, subOpen].map (fun s =>
        { s with channel :=
            { s.channel with queue := s.channel.queue ++ [Event.Drop] } })
      handleOneEvent [subActive, subOpen]
          { operation_type := OperationType.Drop, document_key := none,
            full_document := none, full_document_before_change := none,
            update_description := none } = StepOutcome.next delivered
      ∧ handleOneEvent [subActive, subOpen]
          { operation_type := OperationType.DropDatabase,
            document_key := none, full_document := none,
            full_document_before_change := none,
            update_description := none } = StepOutcome.next delivered
      ∧ handleOneEvent [subActive, subOpen]
          { operation_type := OperationType.Rename, document_key := none,
            full_document := none, full_document_before_change := none,
            update_description := none } = StepOutcome.next delivered
      ∧ handleOneEvent [subActive, subOpen]
          { operation_type := OperationType.Invalidate, document_key := none,
            full_document := none, full_document_before_change := none,
            update_description := none } = StepOutcome.next delivered) :=
  ⟨by intro s hs; fin_cases hs <;> rfl,
    C7_drop_class_unconditional [subActive, subOpen] none none none none
      (by intro s hs; fin_cases hs <;> rfl)⟩

/-- C9: key extraction succeeds exactly when the event carries a
`document_key` whose `_id` field is a BSON string; when the key is
absent or the `_id` field is missing or of another BSON type, the
watcher loop body panics (for `Delete`, `Update` and `Replace` events)
instead of returning an error. -/
theorem C9_key_extraction (dk : Option Document) (k : String)
    (subs : List Subscription) (fd fdb : Option Document)
    (ud : Option UpdateDescription) :
    (get_key dk = some k ↔
      ∃ d, dk = some d ∧ docGet d "_id" = some (Bson.str k))
    ∧ (get_key dk = none →
        handleOneEvent subs
            { operation_type := OperationType.Delete, document_key := dk,
              full_document := fd, full_document_before_change := fdb,
              update_description := ud } = StepOutcome.panicked unwrapNoneMsg
        ∧ handleOneEvent subs
            { operation_type := OperationType.Update, document_key := dk,
              full_document := fd, full_document_before_change := fdb,
              update_description := ud } = StepOutcome.panicked unwrapNoneMsg
        ∧ handleOneEvent subs
            { operation_type := OperationType.Replace, document_key := dk,
              full_document := fd, full_document_before_change := fdb,
              update_description := ud } =
          StepOutcome.panicked unwrapNoneMsg) := by
  constructor
  · cases dk with
    | none => simp [get_key]
    | some d =>
      cases hb : docGet d "_id" with
      | none => simp [get_key, hb]
      | some b => cases b <;> simp [get_key, hb, bsonAsStr]
  · intro hk
    refine ⟨?_, ?_, ?_⟩ <;> simp [handleOneEvent, hk]

/-- Witness for C9 at a document key whose `_id` is an ObjectId: key
extraction fails and a `Delete` event panics the loop body. -/
theorem C9_witness :
    get_key (some [("_id", Bson.objectId "507f1f77bcf86cd799439011")]) =
      none
    ∧ handleOneEvent []
        { operation_type := OperationType.Delete,
          document_key :=
            some [("_id", Bson.objectId "507f1f77bcf86cd799439011")],
          full_document := none, full_document_before_change := none,
          update_description := none } =
      StepOutcome.panicked unwrapNoneMsg :=
  ⟨rfl,
    ((C9_key_extraction
        (some [("_id", Bson.objectId "507f1f77bcf86cd799439011")]) "x" []
        none none none).2 rfl).1⟩

/-- C2 (code bug): two sequential `Mercurius::add` calls for the same
collection name do NOT reuse the existing watcher.  The second call
creates a fresh `CollectionEntry` (watcher id 1, a second change-feed
session) and `collections.insert` replaces the first entry, so the
broker ends with a single-subscription entry under watcher id 1 and the
first add's subscription is gone, violating the claimed reuse invariant
and the liveness of previously registered subscriptions. -/
theorem C2_add_replaces_existing_watcher :
    (match twoAddsSameCollection with
      | Except.ok m2 =>
        some ((lookupAssoc m2.collections "users").map
            (fun e => (e.watcherId, e.subscriptions.subscriptions.map
              Prod.fst)),
          m2.nextWatcherId)
      | Except.error _ => none) = some (some (1, [0]), 2) := rfl

/-- C3 (code bug): `find_free_index` scans only positions
`0..keys.len()` and never returns the position after the last key, so
in compact-scan situations with a gap-free key set registration fails
with `NoFreeSlot` although the ID space is nowhere near saturated: at
the overflow point with an empty registry `add` reports `NoFreeSlot`
(and still flips `has_been_filled`), and with the single key `0` both
`find_free_index` and `add` report `NoFreeSlot` although 1 is free. -/
theorem C3_compact_scan_rejects_gap_free_registry :
    ((SubscriptionsManager.add
        { subscriptions := [], has_been_filled := false,
          next_index := USIZE_MAX } subOpen).2 =
      Except.error SubscriptionsManagerError.NoFreeSlot)
    ∧ ((SubscriptionsManager.add
        { subscriptions := [], has_been_filled := false,
          next_index := USIZE_MAX } subOpen).1.has_been_filled = true)
    ∧ (SubscriptionsManager.find_free_index
        { subscriptions := [(0, subOpen)], has_been_filled := true,
          next_index := 1 } =
      Except.error SubscriptionsManagerError.NoFreeSlot)
    ∧ ((SubscriptionsManager.add
        { subscriptions := [(0, subOpen)], has_been_filled := true,
          next_index := 1 } subOpen).2 =
      Except.error SubscriptionsManagerError.NoFreeSlot) :=
  ⟨rfl, rfl, rfl, rfl⟩

/-- C4 (code bug): a send failure aborts the dispatch pass.  With a
dead-receiver subscription followed by a live one, the insert fan-out
stops at the first send error: the loop result carries the error, the
live subscription's queue stays empty even though dispatching to it
alone would deliver the event, and the loop body turns the batch into a
fatal outcome. -/
theorem C4_send_failure_aborts_batch :
    ((dispatchLoop (fun s => s.handle_insert docActive)
        [subClosed, subOpen]).2 = some { event := Event.Added docActive })
    ∧ (((dispatchLoop (fun s => s.handle_insert docActive)
        [subClosed, subOpen]).1.map (fun s => s.channel.queue)) = [[], []])
    ∧ ((Subscription.handle_insert subOpen docActive).toOption.map
        (fun s => s.channel.queue) = some [Event.Added docActive])
    ∧ (handleOneEvent [subClosed, subOpen]
        { operation_type := OperationType.Insert, document_key := none,
          full_document := some docActive,
          full_document_before_change := none,
          update_description := none } =
      StepOutcome.fatal { event := Event.Added docActive }) :=
  ⟨rfl, rfl, rfl, rfl⟩

/-- C8 (code bug): an `Other` or unrecognized operation kind makes the
watcher loop panic (both in one step and through a whole run of
`handle_events`) instead of terminating with a reported error. -/
theorem C8_other_operation_panics :
    handleOneEvent [subOpen]
        { operation_type := OperationType.Other "customOp",
          document_key := none, full_document := none,
          full_document_before_change := none, update_description := none } =
      StepOutcome.panicked
        "Received a change event that we do not know how to handle: customOp"
    ∧ handle_events [subOpen]
        [{ operation_type := OperationType.Other "customOp",
           document_key := none, full_document := none,
           full_document_before_change := none,
           update_description := none }] =
      LoopResult.panicked
        "Received a change event that we do not know how to handle: customOp"
    ∧ handleOneEvent [subOpen]
        { operation_type := OperationType.Unknown "futureOp",
          document_key := none, full_document := none,
          full_document_before_change := none, update_description := none } =
      StepOutcome.panicked "Operation type not implemented: futureOp" :=
  ⟨rfl, rfl, rfl⟩

/-- In the monotonic phase (`has_been_filled` false, counter below the
ID bound) `add` registers under the current counter value and bumps the
counter, never consulting the existing keys. -/
theorem add_monotonic (m : SubscriptionsManager) (s : Subscription)
    (h1 : m.has_been_filled = false) (h2 : m.next_index < USIZE_MAX) :
    m.add s =
      ({ m with
          subscriptions := insertAssoc m.subscriptions m.next_index s,
          next_index := m.next_index + 1 },
        Except.ok m.next_index) := by
  have hgt : ¬ (m.next_index + 1 > USIZE_MAX) := by omega
  simp [SubscriptionsManager.add, h1, checked_add, hgt]

/-- Inserting a key absent from an association list appends it. -/
theorem insertAssoc_append {κ α : Type} [DecidableEq κ]
    (l : List (κ × α)) (k : κ) (v : α) (h : ∀ p ∈ l, p.1 ≠ k) :
    insertAssoc l k v = l ++ [(k, v)] := by
  induction l with
  | nil => rfl
  | cons p rest ih =>
    have hp : p.1 ≠ k := h p (by simp)
    have hrest : ∀ q ∈ rest, q.1 ≠ k := fun q hq => h q (by simp [hq])
    cases p with
    | mk k1 v1 => simp [insertAssoc, hp, ih hrest]

/-- `n` sequential registrations on a fresh registry hand out handles
`0, 1, ..., n - 1` and leave the counter at `n`, still monotonic. -/
theorem addN_spec (s : Subscription) (n : Nat) (h : n ≤ USIZE_MAX) :
    addN s n =
      ({ subscriptions := assocRange n s, has_been_filled := false,
          next_index := n },
        (List.range n).map Except.ok) := by
  induction n with
  | zero => simp [addN, assocRange, SubscriptionsManager.new]
  | succ n ih =>
    have hn : n ≤ USIZE_MAX := Nat.le_of_succ_le h
    have hlt : n < USIZE_MAX := h
    have hkeys : ∀ p ∈ (List.range n).map (fun i => (i, s)), p.1 ≠ n := by
      intro p hp
      simp only [List.mem_map, List.mem_range] at hp
      obtain ⟨i, hi, rfl⟩ := hp
      simpa using Nat.ne_of_lt hi
    have heq : insertAssoc ((List.range n).map (fun i => (i, s))) n s =
        (List.range n).map (fun i => (i, s)) ++ [(n, s)] :=
      insertAssoc_append _ _ _ hkeys
    simp only [addN, ih hn]
    rw [add_monotonic _ s rfl hlt]
    simp [assocRange, List.range_succ, heq]

/-- C6: before ID-space exhaustion, sequential registrations on an
empty registry yield handles `0, 1, ..., n - 1` in order, and after
unregistering an interior handle `i` the next registration returns `n`,
not the freed `i` — the allocator stays monotonic. -/
theorem C6_monotonic_phase (s : Subscription) (n i : Nat)
    (hn : n < USIZE_MAX) (hi : i < n) :
    (addN s n).2 = (List.range n).map Except.ok
    ∧ (((addN s n).1.remove i).add s).2 = Except.ok n
    ∧ n ≠ i := by
  have hspec := addN_spec s n (Nat.le_of_lt hn)
  refine ⟨by rw [hspec], ?_, by omega⟩
  rw [hspec]
  rw [add_monotonic _ s rfl hn]
  rfl

/-- Witness for C6: three registrations, then removal of interior
handle 1 and a fourth registration, which gets handle 3. -/
theorem C6_witness :
    3 < USIZE_MAX ∧ 1 < 3 ∧
      ((addN subOpen 3).2 = (List.range 3).map Except.ok
        ∧ (((addN subOpen 3).1.remove 1).add subOpen).2 = Except.ok 3
        ∧ 3 ≠ 1) :=
  ⟨by decide, by decide,
    C6_monotonic_phase subOpen 3 1 (by decide) (by decide)⟩
